import Mathlib

/-!
Verification of the `INA220` MicroPython driver
(`public/prism/drivers/micropythonbrd/upyb_INA220.py`).

The driver talks to an INA220 current-sense chip over I2C.  We embed it
shallowly: the I2C transport is an oracle `resp : Nat → Nat` giving the
16-bit word recombined from the two bytes of the k-th `readfrom_mem`
call, together with `wresp : Nat → Nat` giving the byte count the
transport reports for the k-th `writeto_mem` call (the code ignores it).
Voltages are exact rationals; the Python float constants `0.004` and
`0.000010` become the rationals `4/1000` and `10/1000000`.  Every I2C
transaction, GPIO pin change and sleep is recorded in an event trace so
that temporal claims about the strobe pin can be stated.

Python code that can raise is modelled with `PyResult`: in
`_conversion_ready` the statement `return True, volt` sits at loop-body
level (not inside the `if vbus_reg & 0x2:` block), so the `for count in
range(10)` loop always finishes during its first iteration, and when the
conversion-ready bit is clear on that first poll the local `volt` was
never assigned, so CPython raises `UnboundLocalError`.  That raise is
the `PyResult.raised PyErr.unboundLocalVolt` outcome below.
-/

namespace INA220Spec

/-- Register addresses (attributes set in `INA220.__init__`). -/
def INA220_CONFIG : Nat := 0x00

def INA220_SV : Nat := 0x01

def INA220_BV : Nat := 0x02

/-- Documented post-reset default of the configuration register. -/
def INA220_CONFIG_RESET_VALUE : Nat := 0x399F

/-- Shunt LSB, 10 µV, as an exact rational (`0.000010` in the source). -/
def INA220_SHUNT_CONVERSION_FACTOR : ℚ := 10 / 1000000

/-- Bus-voltage LSB, 4 mV, as an exact rational (`0.004` in the source). -/
def INA220_VBUS_CONVERSION_FACTOR : ℚ := 4 / 1000

def INA220_CONFIG_MODE_SANDBVOLT_CONTINUOUS : Nat := 0x0007

def INA220_CONFIG_BADCRES_12BIT : Nat := 0x0400

def INA220_CONFIG_GAIN_8_320MV : Nat := 0x1800

def INA220_CONFIG_BVOLTAGERANGE_32V : Nat := 0x2000

def INA220_SVOLT_SIGN : Nat := 0x8000

def INA220_SVOLT_SIGN_2BYTES : Nat := 0xFFFF

/-- Observable events of a run: an I2C register write (register plus the
two bytes put on the wire), an I2C register read (register plus the
16-bit word obtained), a GPIO strobe-pin level change, and a sleep. -/
inductive Event where
  | writeReg (reg b1 b2 : Nat)
  | readReg (reg val : Nat)
  | pinSet (b : Bool)
  | sleepEv
deriving DecidableEq, Repr

/-- Python exceptions the embedded code can raise. -/
inductive PyErr where
  | unboundLocalVolt
deriving DecidableEq, Repr

/-- Outcome of a Python call: a returned value, or a raised exception. -/
inductive PyResult (α : Type) where
  | ok (val : α)
  | raised (e : PyErr)
deriving DecidableEq, Repr

/-- Driver-visible state of a run: the read/write oracles of the
transport, how many reads and writes have happened, and the event
trace so far. -/
structure St where
  resp : Nat → Nat
  wresp : Nat → Nat
  readCount : Nat
  writeCount : Nat
  trace : List Event

/-- Fresh state: no transactions yet, strobe pin low (as set by
`__init__`), empty trace. -/
def initSt (resp wresp : Nat → Nat) : St :=
  ⟨resp, wresp, 0, 0, []⟩

/-- `read_word`: two bytes from `readfrom_mem` recombined as
`value[0] << 8 | value[1]`; the oracle word is reduced mod 2^16 because
each byte is 0..255. -/
def read_word (reg : Nat) (s : St) : Nat × St :=
  let v := s.resp s.readCount % 65536
  (v, { s with readCount := s.readCount + 1,
               trace := s.trace ++ [Event.readReg reg v] })

/-- `write_word`: splits `val` into two bytes, sends them, ignores the
byte count the transport reports (`bytes_sent`) and returns `True`
unconditionally (the comparison against `len(data)` is commented out in
the source). -/
def write_word (reg val : Nat) (s : St) : Bool × St :=
  let b1 := (val >>> 8) &&& 0xFF
  let b2 := val &&& 0xFF
  let _bytes_sent := s.wresp s.writeCount
  (true, { s with writeCount := s.writeCount + 1,
                  trace := s.trace ++ [Event.writeReg reg b1 b2] })

/-- `read_config`: read the configuration register. -/
def read_config (s : St) : Nat × St :=
  read_word INA220_CONFIG s

/-- The canonical continuous-mode configuration word composed in
`__init__`:
`MODE_SANDBVOLT_CONTINUOUS | (samples << 3) | BADCRES_12BIT |
GAIN_8_320MV | BVOLTAGERANGE_32V`. -/
def mkConfigRegister (samples : Nat) : Nat :=
  INA220_CONFIG_MODE_SANDBVOLT_CONTINUOUS |||
    (samples <<< 3) |||
    INA220_CONFIG_BADCRES_12BIT |||
    INA220_CONFIG_GAIN_8_320MV |||
    INA220_CONFIG_BVOLTAGERANGE_32V

/-- The per-instance data fixed by `__init__` that the operations use:
the shunt resistance and the stored `config_register`. -/
structure INA220 where
  rsense : ℚ
  samples : Nat
  config_register : Nat

/-- Builds the instance the way `__init__` does. -/
def INA220.make (rsense : ℚ) (samples : Nat) : INA220 :=
  ⟨rsense, samples, mkConfigRegister samples⟩

/-- `set_config`: write `val` to the configuration register, read the
register back, return `True` iff the read-back equals the stored
`self.config_register` (not the written `val`). -/
def set_config (dev : INA220) (val : Nat) (s : St) : Bool × St :=
  let s1 := (write_word INA220_CONFIG val s).2
  let p := read_config s1
  (decide (p.1 = dev.config_register), p.2)

/-- `reset`: write the fixed pattern `0xB99F` (reset bit `0x8000` or-ed
with `0x399F`) to the configuration register; if the write reported
success, read the register back and return `True` iff it equals
`INA220_CONFIG_RESET_VALUE`; otherwise return `False`. -/
def reset (s : St) : Bool × St :=
  let p := write_word INA220_CONFIG 0xB99F s
  if p.1 then
    let q := read_config p.2
    if q.1 = INA220_CONFIG_RESET_VALUE then (true, q.2) else (false, q.2)
  else (false, p.2)

/-- `_trigger`: rewrite the stored configuration word to start a
conversion. -/
def triggerConv (dev : INA220) (s : St) : St :=
  (write_word INA220_CONFIG dev.config_register s).2

/-- `_conversion_ready`: the source reads

```
for count in range(10):
    sleep(0.1)
    vbus_reg = self.read_word(self.INA220_BV)
    if vbus_reg & 0x2:
        volt = (vbus_reg >> 3) * self.INA220_VBUS_CONVERSION_FACTOR
    return True, volt
return False, 0
```

The `return True, volt` is at loop-body level, so the loop body runs
exactly once: after one sleep and one bus-voltage read, if bit 1 of the
word is set the function returns `(True, (word >> 3) * 0.004)`, and if
it is clear the local `volt` is unbound and CPython raises
`UnboundLocalError` (`PyResult.raised`).  The `return False, 0` after the
loop is unreachable. -/
def conversion_ready (s : St) : PyResult (Bool × ℚ) × St :=
  let s1 := { s with trace := s.trace ++ [Event.sleepEv] }
  let p := read_word INA220_BV s1
  if p.1 &&& 0x2 ≠ 0 then
    (PyResult.ok (true, ((p.1 >>> 3 : Nat) : ℚ) * INA220_VBUS_CONVERSION_FACTOR), p.2)
  else
    (PyResult.raised PyErr.unboundLocalVolt, p.2)

/-- `read_bus_voltage`: trigger, poll via `_conversion_ready`, return
its `(success, value)` on success and `(False, 0)` otherwise; an
exception from `_conversion_ready` propagates. -/
def read_bus_voltage (dev : INA220) (s : St) : PyResult (Bool × ℚ) × St :=
  let s1 := triggerConv dev s
  match conversion_ready s1 with
  | (PyResult.ok (success, val), s2) =>
      if success then (PyResult.ok (success, val), s2)
      else (PyResult.ok (false, (0 : ℚ)), s2)
  | (PyResult.raised e, s2) => (PyResult.raised e, s2)

/-- `read_shunt_voltage`: trigger, wait for conversion ready (its value
is discarded), then with the strobe pin driven high read the shunt
register, drive the pin low, and decode: mask off bit 15; when bit 15
is set, replace the magnitude by `(0xFFFF - raw) + 1`; multiply by the
10 µV LSB.  An exception from `_conversion_ready` propagates. -/
def read_shunt_voltage (dev : INA220) (s : St) : PyResult (Bool × ℚ) × St :=
  let s1 := triggerConv dev s
  match conversion_ready s1 with
  | (PyResult.raised e, s2) => (PyResult.raised e, s2)
  | (PyResult.ok (success, _), s2) =>
      if success then
        let s3 := { s2 with trace := s2.trace ++ [Event.pinSet true] }
        let p := read_word INA220_SV s3
        let s5 := { p.2 with trace := p.2.trace ++ [Event.pinSet false] }
        let vshunt0 := p.1 &&& 0x7FFF
        let vshunt1 := if p.1 &&& INA220_SVOLT_SIGN ≠ 0
          then (INA220_SVOLT_SIGN_2BYTES - p.1) + 1 else vshunt0
        (PyResult.ok (true, (vshunt1 : ℚ) * INA220_SHUNT_CONVERSION_FACTOR), s5)
      else (PyResult.ok (false, (0 : ℚ)), s2)

/-- `measure_current`: Ohm's law on the shunt reading; the success flag
passes through unchanged, and an exception propagates. -/
def measure_current (dev : INA220) (s : St) : PyResult (Bool × ℚ) × St :=
  match read_shunt_voltage dev s with
  | (PyResult.ok (success, voltage), s2) =>
      (PyResult.ok (success, voltage / dev.rsense), s2)
  | (PyResult.raised e, s2) => (PyResult.raised e, s2)

/-- Level of the strobe pin after a list of events (low at start, as
`__init__` leaves it). -/
def pinState (tr : List Event) : Bool :=
  tr.foldl (fun acc e => match e with | Event.pinSet b => b | _ => acc) false

/-- Transport oracle whose first read (the bus-voltage poll) has the
conversion-ready bit set and whose later reads return `raw`. -/
def respSV (raw : Nat) : Nat → Nat :=
  fun k => match k with
  | 0 => 0x2
  | _ => raw

/-- A word and-ed with `0x7FFF` keeps its low 15 bits: masking off bit 15
is reduction mod `2^15`. -/
lemma and_mask15 (n : Nat) : n &&& 0x7FFF = n % 0x8000 := by
  simpa using Nat.and_pow_two_sub_one_eq_mod n 15

/-- A word and-ed with `0x8000` is nonzero exactly when bit 15 is set. -/
lemma and_sign_ne_zero (n : Nat) : n &&& 0x8000 ≠ 0 ↔ n.testBit 15 = true := by
  have h := Nat.and_two_pow n 15
  norm_num at h
  rw [h]
  cases hb : n.testBit 15 <;> simp

/-- A word and-ed with `0x2` is nonzero exactly when bit 1 (the
conversion-ready flag) is set. -/
lemma and_ready_ne_zero (n : Nat) : n &&& 0x2 ≠ 0 ↔ n.testBit 1 = true := by
  have h := Nat.and_two_pow n 1
  norm_num at h
  rw [h]
  cases hb : n.testBit 1 <;> simp

/-- Shared evaluation: against a transport whose bus-voltage poll is
ready and whose shunt register reads `0x0064`, `read_shunt_voltage`
returns `(True, 0.001)`. -/
lemma shunt_eval_100 :
    (read_shunt_voltage (INA220.make 75 0) (initSt (respSV 0x0064) (fun _ => 2))).1 =
      PyResult.ok (true, (1/1000 : ℚ)) := by
  simp [read_shunt_voltage, triggerConv, conversion_ready, read_word, write_word, initSt,
    INA220.make, mkConfigRegister, INA220_SHUNT_CONVERSION_FACTOR, respSV,
    INA220_SVOLT_SIGN, INA220_SVOLT_SIGN_2BYTES]
  rw [if_pos (by decide : (100 : Nat) &&& 32768 = 0)]
  norm_num [show (100 : Nat) &&& 32767 = 100 from by decide]

/-- Claim C1 (code bug): the spec promises that, with a total transport,
no public operation ever raises and each returns a `(success, value)`
pair.  On a transport whose first bus-voltage poll returns `0x0000`
(conversion-ready bit clear), `read_bus_voltage`, `read_shunt_voltage`
and `measure_current` all raise `UnboundLocalError` instead: the
misindented `return True, volt` in `_conversion_ready` reaches `volt`
without it ever being assigned. -/
theorem read_ops_raise_when_not_ready :
    (read_bus_voltage (INA220.make 75 0) (initSt (fun _ => 0) (fun _ => 2))).1 =
      PyResult.raised PyErr.unboundLocalVolt ∧
    (read_shunt_voltage (INA220.make 75 0) (initSt (fun _ => 0) (fun _ => 2))).1 =
      PyResult.raised PyErr.unboundLocalVolt ∧
    (measure_current (INA220.make 75 0) (initSt (fun _ => 0) (fun _ => 2))).1 =
      PyResult.raised PyErr.unboundLocalVolt := ⟨rfl, rfl, rfl⟩

/-- Claim C2: against an echoing transport, `set_config v` returns true
iff `v` equals the canonical continuous-mode configuration word composed
at construction, not merely whenever the read-back equals the written
value. -/
theorem set_config_echo (rsense : ℚ) (samples v : Nat) (hv : v < 65536)
    (resp wresp : Nat → Nat) (hecho : resp 0 = v) :
    ((set_config (INA220.make rsense samples) v (initSt resp wresp)).1 = true ↔
      v = (INA220.make rsense samples).config_register) := by
  simp [set_config, read_config, read_word, write_word, initSt, hecho, Nat.mod_eq_of_lt hv]

/-- Witness for claim C2 at `v = 0x3C07` (the canonical word for
`samples = 0`) with an echoing transport. -/
theorem set_config_echo_witness :
    (0x3C07 : Nat) < 65536 ∧
    (fun _ : Nat => (0x3C07 : Nat)) 0 = 0x3C07 ∧
    ((set_config (INA220.make 75 0) 0x3C07 (initSt (fun _ => 0x3C07) (fun _ => 2))).1 = true ↔
      (0x3C07 : Nat) = (INA220.make 75 0).config_register) :=
  ⟨by decide, rfl,
   set_config_echo 75 0 0x3C07 (by decide) (fun _ => 0x3C07) (fun _ => 2) rfl⟩

/-- Claim C3 (code bug): the spec promises that when the ready bit is
never set, `read_bus_voltage` exhausts the fixed retry budget of 10
polls and returns `(False, 0)`.  The code polls exactly once
(`readCount = 1` afterwards) and raises `UnboundLocalError`; the retry
loop and the `(False, 0)` return are dead code. -/
theorem not_ready_raises_after_one_poll :
    (read_bus_voltage (INA220.make 75 0) (initSt (fun _ => 0x1000) (fun _ => 3))).1 =
      PyResult.raised PyErr.unboundLocalVolt ∧
    (read_bus_voltage (INA220.make 75 0) (initSt (fun _ => 0x1000) (fun _ => 3))).2.readCount = 1 :=
  ⟨rfl, rfl⟩

/-- Claim C4: `reset` writes the fixed pattern `0xB99F` (bytes `0xB9`,
`0x9F`) to the configuration register, reads it back, and returns true
iff the read-back equals the documented post-reset constant `0x399F`;
any other read-back gives false, for every transport response. -/
theorem reset_spec (resp wresp : Nat → Nat) :
    ((reset (initSt resp wresp)).1 = true ↔ resp 0 % 65536 = INA220_CONFIG_RESET_VALUE) ∧
    (reset (initSt resp wresp)).2.trace =
      [Event.writeReg INA220_CONFIG 0xB9 0x9F, Event.readReg INA220_CONFIG (resp 0 % 65536)] := by
  constructor
  · simp [reset, write_word, read_config, read_word, initSt]
    split <;> simp_all
  · simp [reset, write_word, read_config, read_word, initSt,
      show (185 : Nat) &&& 255 = 185 from by decide,
      show (47519 : Nat) &&& 255 = 159 from by decide]
    split <;> simp

/-- Claim C5 (amended): `read_shunt_voltage` masks off bit 15 of the raw
shunt code; when bit 15 is set the magnitude is instead
`(0xFFFF - raw) + 1`; the always-positive magnitude is scaled by the
10 µV LSB.  Raw `0x0064` yields `0.001` volts, and raw `0x8064` yields
magnitude `32668` and voltage `0.32668` volts (not `32669` / `0.32669`
as originally claimed), with sign information dropped. -/
theorem shunt_decode_spec (dev : INA220) (resp wresp : Nat → Nat)
    (hready : (resp 0 % 65536).testBit 1 = true) :
    (read_shunt_voltage dev (initSt resp wresp)).1 =
      PyResult.ok (true,
        ((if (resp 1 % 65536).testBit 15
            then (0xFFFF - resp 1 % 65536) + 1
            else (resp 1 % 65536) % 0x8000 : Nat) : ℚ) * INA220_SHUNT_CONVERSION_FACTOR) ∧
    (read_shunt_voltage dev (initSt (respSV 0x0064) wresp)).1 =
      PyResult.ok (true, (1/1000 : ℚ)) ∧
    (read_shunt_voltage dev (initSt (respSV 0x8064) wresp)).1 =
      PyResult.ok (true, (32668/100000 : ℚ)) := by
  have key : ∀ r : Nat → Nat, (r 0 % 65536).testBit 1 = true →
      (read_shunt_voltage dev (initSt r wresp)).1 =
        PyResult.ok (true,
          ((if (r 1 % 65536).testBit 15
              then (0xFFFF - r 1 % 65536) + 1
              else (r 1 % 65536) % 0x8000 : Nat) : ℚ) * INA220_SHUNT_CONVERSION_FACTOR) := by
    intro r hr
    simp [read_shunt_voltage, triggerConv, conversion_ready, read_word, write_word, initSt,
      (and_ready_ne_zero (r 0 % 65536)).2 hr, INA220_SVOLT_SIGN, INA220_SVOLT_SIGN_2BYTES,
      and_mask15, and_sign_ne_zero]
  refine ⟨key resp hready, ?_, ?_⟩
  · rw [key (respSV 0x0064) (by decide)]
    norm_num [respSV, INA220_SHUNT_CONVERSION_FACTOR,
      show ((100 : Nat).testBit 15) = false from by decide,
      show (100 : Nat) % 32768 = 100 from by decide]
  · rw [key (respSV 0x8064) (by decide)]
    norm_num [respSV, INA220_SHUNT_CONVERSION_FACTOR,
      show ((32868 : Nat).testBit 15) = true from by decide]

/-- Witness for claim C5: the ready hypothesis holds for `respSV 0x0064`
and the decoded voltage for raw `0x0064` is `0.001` volts. -/
theorem shunt_decode_spec_witness :
    ((respSV 0x0064 0 % 65536).testBit 1 = true) ∧
    (read_shunt_voltage (INA220.make 75 0) (initSt (respSV 0x0064) (fun _ => 2))).1 =
      PyResult.ok (true, (1/1000 : ℚ)) :=
  ⟨by decide,
   (shunt_decode_spec (INA220.make 75 0) (respSV 0x0064) (fun _ => 2) (by decide)).2.1⟩

/-- Counterexample to claim C5 as frozen: for raw shunt code `0x8064`
the driver returns voltage `0.32668` volts, not `0.32669` volts — the
claimed magnitude `(0xFFFF - 0x8064) + 1 = 32669` miscomputes; the
difference is `0x7F9B + 1 = 0x7F9C = 32668`. -/
theorem shunt_decode_32669_counterexample :
    (read_shunt_voltage (INA220.make 75 0) (initSt (respSV 0x8064) (fun _ => 2))).1 =
      PyResult.ok (true, (32668/100000 : ℚ)) ∧
    ¬ ((read_shunt_voltage (INA220.make 75 0) (initSt (respSV 0x8064) (fun _ => 2))).1 =
      PyResult.ok (true, (32669/100000 : ℚ))) := by
  have h : (read_shunt_voltage (INA220.make 75 0) (initSt (respSV 0x8064) (fun _ => 2))).1 =
      PyResult.ok (true, (32668/100000 : ℚ)) := by
    simp [read_shunt_voltage, triggerConv, conversion_ready, read_word, write_word, initSt,
      INA220.make, mkConfigRegister, INA220_SHUNT_CONVERSION_FACTOR, respSV,
      INA220_SVOLT_SIGN, INA220_SVOLT_SIGN_2BYTES]
    norm_num
  refine ⟨h, ?_⟩
  rw [h]
  simp only [PyResult.ok.injEq, Prod.mk.injEq, true_and]
  norm_num

/-- Claim C6: when the (single) bus-voltage poll returns a word with the
conversion-ready bit (bit 1) set, `read_bus_voltage` returns
`(True, (word >> 3) * 0.004)`; in particular raw `0x1002` converts to
`512 * 0.004 = 2.048` volts. -/
theorem bus_voltage_ready_decode (dev : INA220) (resp wresp : Nat → Nat)
    (hready : (resp 0 % 65536).testBit 1 = true) :
    (read_bus_voltage dev (initSt resp wresp)).1 =
      PyResult.ok (true, (((resp 0 % 65536) >>> 3 : Nat) : ℚ) * INA220_VBUS_CONVERSION_FACTOR) ∧
    (read_bus_voltage dev (initSt (fun _ => 0x1002) wresp)).1 =
      PyResult.ok (true, (2048/1000 : ℚ)) := by
  have key : ∀ r : Nat → Nat, (r 0 % 65536).testBit 1 = true →
      (read_bus_voltage dev (initSt r wresp)).1 =
        PyResult.ok (true, (((r 0 % 65536) >>> 3 : Nat) : ℚ) * INA220_VBUS_CONVERSION_FACTOR) := by
    intro r hr
    simp [read_bus_voltage, triggerConv, conversion_ready, read_word, write_word, initSt,
      (and_ready_ne_zero (r 0 % 65536)).2 hr]
  refine ⟨key resp hready, ?_⟩
  rw [key (fun _ => 0x1002) (by decide)]
  norm_num [INA220_VBUS_CONVERSION_FACTOR, show (4098 : Nat) >>> 3 = 512 from by decide]

/-- Witness for claim C6 at raw bus code `0x1002`. -/
theorem bus_voltage_ready_decode_witness :
    (((fun _ : Nat => (0x1002 : Nat)) 0 % 65536).testBit 1 = true) ∧
    (read_bus_voltage (INA220.make 75 0) (initSt (fun _ => 0x1002) (fun _ => 2))).1 =
      PyResult.ok (true, (2048/1000 : ℚ)) :=
  ⟨by decide,
   (bus_voltage_ready_decode (INA220.make 75 0) (fun _ => 0x1002) (fun _ => 2) (by decide)).2⟩

/-- Claim C7: whenever `read_shunt_voltage` produces an outcome
`(success, v)`, `measure_current` divides `v` by the shunt resistance
fixed at construction and propagates the success flag unchanged. -/
theorem measure_current_ohm (dev : INA220) (hr : dev.rsense ≠ 0) (s : St)
    (success : Bool) (v : ℚ)
    (hs : (read_shunt_voltage dev s).1 = PyResult.ok (success, v)) :
    (measure_current dev s).1 = PyResult.ok (success, v / dev.rsense) := by
  have hz := hr
  unfold measure_current
  rcases hp : read_shunt_voltage dev s with ⟨r, s2⟩
  rw [hp] at hs
  simp only [] at hs
  subst hs
  simp

/-- Witness for claim C7: shunt voltage `0.001` V over `75` Ω gives
`0.001 / 75 = 1/75000` amps, within `1e-7` of the claimed `1.333e-5`. -/
theorem measure_current_ohm_witness :
    (INA220.make 75 0).rsense ≠ 0 ∧
    (read_shunt_voltage (INA220.make 75 0) (initSt (respSV 0x0064) (fun _ => 2))).1 =
      PyResult.ok (true, (1/1000 : ℚ)) ∧
    (measure_current (INA220.make 75 0) (initSt (respSV 0x0064) (fun _ => 2))).1 =
      PyResult.ok (true, (1/1000 : ℚ) / (INA220.make 75 0).rsense) ∧
    ((1/1000 : ℚ) / (INA220.make 75 0).rsense = 1/75000 ∧
      |(1/75000 : ℚ) - 1333/100000000| < 1/10000000) :=
  ⟨by norm_num [INA220.make], shunt_eval_100,
   measure_current_ohm (INA220.make 75 0) (by norm_num [INA220.make]) _ true (1/1000)
     shunt_eval_100,
   by
     constructor
     · norm_num [INA220.make]
     · have h : |(1/75000 : ℚ) - 1333/100000000| = 1/300000000 := by
         rw [abs_of_pos] <;> norm_num
       rw [h]
       norm_num⟩

/-- Claim C8: with a transport that always returns a fixed raw code `c`
whose conversion-ready bit is set, `read_bus_voltage` returns the same
`(True, (c >> 3) * 0.004)` from any such state, and in particular a
repeated call returns the same result as the first. -/
theorem read_bus_voltage_idempotent (dev : INA220) (c : Nat) (hc : c < 65536)
    (hready : c.testBit 1 = true) (s : St) (hs : s.resp = fun _ => c) :
    (read_bus_voltage dev s).1 =
      PyResult.ok (true, ((c >>> 3 : Nat) : ℚ) * INA220_VBUS_CONVERSION_FACTOR) ∧
    (read_bus_voltage dev ((read_bus_voltage dev s).2)).1 = (read_bus_voltage dev s).1 := by
  have key : ∀ t : St, t.resp = (fun _ => c) →
      (read_bus_voltage dev t).1 =
        PyResult.ok (true, ((c >>> 3 : Nat) : ℚ) * INA220_VBUS_CONVERSION_FACTOR) := by
    intro t ht
    simp [read_bus_voltage, triggerConv, conversion_ready, read_word, write_word, ht,
      Nat.mod_eq_of_lt hc, (and_ready_ne_zero c).2 hready]
  have hpres : (read_bus_voltage dev s).2.resp = fun _ => c := by
    simp [read_bus_voltage, triggerConv, conversion_ready, read_word, write_word, hs,
      Nat.mod_eq_of_lt hc, (and_ready_ne_zero c).2 hready]
  exact ⟨key s hs, by rw [key s hs, key _ hpres]⟩

/-- Witness for claim C8 at fixed raw code `0x1002`. -/
theorem read_bus_voltage_idempotent_witness :
    (0x1002 : Nat) < 65536 ∧ (0x1002 : Nat).testBit 1 = true ∧
    (initSt (fun _ => 0x1002) (fun _ => 2)).resp = (fun _ => (0x1002 : Nat)) ∧
    ((read_bus_voltage (INA220.make 75 0) (initSt (fun _ => 0x1002) (fun _ => 2))).1 =
      PyResult.ok (true, ((0x1002 >>> 3 : Nat) : ℚ) * INA220_VBUS_CONVERSION_FACTOR) ∧
     (read_bus_voltage (INA220.make 75 0)
        ((read_bus_voltage (INA220.make 75 0) (initSt (fun _ => 0x1002) (fun _ => 2))).2)).1 =
       (read_bus_voltage (INA220.make 75 0) (initSt (fun _ => 0x1002) (fun _ => 2))).1) :=
  ⟨by decide, by decide, rfl,
   read_bus_voltage_idempotent (INA220.make 75 0) 0x1002 (by decide) (by decide) _ rfl⟩

/-- Claim C9: on an execution of `read_shunt_voltage` that reaches the
shunt-register read, the trace is exactly: config write, sleep,
bus-voltage read, pin high, shunt read, pin low — so the strobe pin
goes high immediately before the shunt read, low immediately after it,
and is low at every other point of the operation. -/
theorem shunt_read_pin_pulse (dev : INA220) (resp wresp : Nat → Nat)
    (hready : (resp 0 % 65536).testBit 1 = true) :
    (read_shunt_voltage dev (initSt resp wresp)).2.trace =
      [Event.writeReg INA220_CONFIG ((dev.config_register >>> 8) &&& 0xFF)
         (dev.config_register &&& 0xFF),
       Event.sleepEv,
       Event.readReg INA220_BV (resp 0 % 65536),
       Event.pinSet true,
       Event.readReg INA220_SV (resp 1 % 65536),
       Event.pinSet false] ∧
    (∀ i, i ≤ 6 →
      (pinState (List.take i (read_shunt_voltage dev (initSt resp wresp)).2.trace) = true ↔
        i = 4 ∨ i = 5)) := by
  have htr : (read_shunt_voltage dev (initSt resp wresp)).2.trace =
      [Event.writeReg INA220_CONFIG ((dev.config_register >>> 8) &&& 0xFF)
         (dev.config_register &&& 0xFF),
       Event.sleepEv,
       Event.readReg INA220_BV (resp 0 % 65536),
       Event.pinSet true,
       Event.readReg INA220_SV (resp 1 % 65536),
       Event.pinSet false] := by
    simp [read_shunt_voltage, triggerConv, conversion_ready, read_word, write_word, initSt,
      (and_ready_ne_zero (resp 0 % 65536)).2 hready]
  refine ⟨htr, fun i hi => ?_⟩
  rw [htr]
  interval_cases i <;> simp [pinState]

/-- Witness for claim C9 with a ready transport. -/
theorem shunt_read_pin_pulse_witness :
    ((respSV 0x0064 0 % 65536).testBit 1 = true) ∧
    ((read_shunt_voltage (INA220.make 75 0) (initSt (respSV 0x0064) (fun _ => 2))).2.trace =
      [Event.writeReg INA220_CONFIG (((INA220.make 75 0).config_register >>> 8) &&& 0xFF)
         ((INA220.make 75 0).config_register &&& 0xFF),
       Event.sleepEv,
       Event.readReg INA220_BV (respSV 0x0064 0 % 65536),
       Event.pinSet true,
       Event.readReg INA220_SV (respSV 0x0064 1 % 65536),
       Event.pinSet false] ∧
     (∀ i, i ≤ 6 →
       (pinState (List.take i
           (read_shunt_voltage (INA220.make 75 0)
             (initSt (respSV 0x0064) (fun _ => 2))).2.trace) = true ↔
         i = 4 ∨ i = 5))) :=
  ⟨by decide,
   shunt_read_pin_pulse (INA220.make 75 0) (respSV 0x0064) (fun _ => 2) (by decide)⟩

/-- Claim C10: `write_word` returns `True` for every register, value and
state, whatever byte count the transport reports; consequently the
results of `set_config` and `reset` are independent of the write
transport and depend only on the read-back comparison. -/
theorem write_word_always_true :
    (∀ reg val s, (write_word reg val s).1 = true) ∧
    (∀ dev v resp w w2,
      (set_config dev v (initSt resp w)).1 = (set_config dev v (initSt resp w2)).1) ∧
    (∀ resp w w2, (reset (initSt resp w)).1 = (reset (initSt resp w2)).1) := by
  refine ⟨fun reg val s => rfl, fun dev v resp w w2 => ?_, fun resp w w2 => ?_⟩
  · simp [set_config, read_config, read_word, write_word, initSt]
  · simp [reset, read_config, read_word, write_word, initSt]
    split <;> rfl

end INA220Spec
